import Mathlib

/-
Verification development for prtop, a terminal dashboard for GitHub PR check
statuses.  The Go sources are shallowly embedded:

* Go strings are modelled as Lean `String` values (sequences of runes); all
  operations are carried out on the underlying character lists.  Go's byte-wise
  lexicographic order on UTF-8 strings coincides with code-point order, which
  `charListLt` implements.
* `time.Time` values are modelled at one-second granularity as `Int` seconds;
  the zero value `time.Time{}` is modelled as `none : Option Int`.
  `time.Parse(time.RFC3339, s)` is an external standard-library routine, so it
  enters the model as a parameter `parse : String → Option Int` (`none` for a
  parse error), and `time.Now()` as a parameter `now : Int`.
* fallible external calls (the gh CLI, JSON decoding) are outside the embedded
  core; the pure per-item pipeline of `fetchPRData` is embedded directly.
-/

namespace Prtop

/-- Whitespace test modelling `unicode.IsSpace` on the characters relevant to
`strings.TrimSpace` (ASCII whitespace plus NEL and NBSP). -/
def isGoSpace (c : Char) : Bool :=
  c ∈ [' ', '\t', '\n', '\x0b', '\x0c', '\r', '\u0085', ' ']

/-- Model of Go `strings.TrimSpace`: drop leading and trailing whitespace. -/
def goTrimSpace (s : String) : String :=
  String.mk (((s.toList.dropWhile isGoSpace).reverse.dropWhile isGoSpace).reverse)

/-- Model of Go `strings.ToUpper` (character-wise upper-casing; ASCII letters
are the only ones that occur in the status vocabulary). -/
def goToUpper (s : String) : String :=
  String.mk (s.toList.map Char.toUpper)

/-- Model of Go `strings.HasPrefix`. -/
def goHasPre (s pre : String) : Bool :=
  pre.toList.isPrefixOf s.toList

/-- Lexicographic order on character lists; Go's `<` on strings is byte-wise
lexicographic, which on valid UTF-8 equals code-point lexicographic order. -/
def charListLt : List Char → List Char → Bool
  | [], [] => false
  | [], _ :: _ => true
  | _ :: _, [] => false
  | a :: as, b :: bs =>
    if a < b then true
    else if b < a then false
    else charListLt as bs

/-- Model of Go `<` on strings. -/
def goStrLt (a b : String) : Bool := charListLt a.toList b.toList

/-- Type `CheckStatus` from gh.go:16-23; the constructor order fixes the sort
rank (`iota`): Running = 0, Fail = 1, Pass = 2, Skipped = 3. -/
inductive CheckStatus where
  | Running
  | Fail
  | Pass
  | Skipped
deriving DecidableEq, Repr

/-- Numeric rank of a `CheckStatus`, the `iota` value from gh.go:18-23. -/
def statusRank : CheckStatus → Nat
  | .Running => 0
  | .Fail => 1
  | .Pass => 2
  | .Skipped => 3

/-- Function `normalizeStatus` from gh.go:76-91: upper-case and trim the raw string,
then switch over the known status vocabulary; default is Running. -/
def normalizeStatus (raw : String) : CheckStatus :=
  let r := goToUpper (goTrimSpace raw)
  if r = "SUCCESS" ∨ r = "PASS" then .Pass
  else if r = "FAILURE" ∨ r = "FAIL" ∨ r = "ERROR" ∨ r = "TIMED_OUT" ∨
      r = "ACTION_REQUIRED" ∨ r = "STARTUP_FAILURE" then .Fail
  else if r = "IN_PROGRESS" ∨ r = "RUNNING" ∨ r = "PENDING" ∨ r = "QUEUED" ∨
      r = "WAITING" ∨ r = "REQUESTED" then .Running
  else if r = "SKIPPED" ∨ r = "CANCELLED" ∨ r = "NEUTRAL" ∨ r = "STALE" then .Skipped
  else if r = "" then .Running
  else .Running

/-- Restatement of the spec's normalization table (spec §4.1), written from the
spec's words for comparison with `normalizeStatus`: the input here is the
already-canonicalized (upper-cased, trimmed) string, and every string outside
the four listed groups — the empty string included — maps to Running. -/
def specStatusTable (canonical : String) : CheckStatus :=
  if canonical ∈ ["SUCCESS", "PASS"] then .Pass
  else if canonical ∈ ["FAILURE", "FAIL", "ERROR", "TIMED_OUT",
      "ACTION_REQUIRED", "STARTUP_FAILURE"] then .Fail
  else if canonical ∈ ["IN_PROGRESS", "RUNNING", "PENDING", "QUEUED",
      "WAITING", "REQUESTED"] then .Running
  else if canonical ∈ ["SKIPPED", "CANCELLED", "NEUTRAL", "STALE"] then .Skipped
  else .Running

/-- Zero-padded rendering of an integer to width two, Go's `%02d` verb for the
range that occurs here (0 ≤ n ≤ 59). -/
def pad2 (n : Int) : String :=
  if 0 ≤ n ∧ n < 10 then "0" ++ toString n else toString n

/-- Function `formatDuration` from gh.go:121-128. Go `/` and `%` on int truncate toward
zero, `Int.tdiv`/`Int.tmod` here. -/
def formatDuration (totalSeconds : Int) : String :=
  let minutes := Int.tdiv totalSeconds 60
  let seconds := Int.tmod totalSeconds 60
  if minutes > 0 then toString minutes ++ "m" ++ pad2 seconds ++ "s"
  else toString seconds ++ "s"

/-- Function `parseDuration` from gh.go:93-119, parameterized by the RFC3339 parser and
the current clock. Returns (duration string, start time, completed flag);
`none` models the zero `time.Time`. -/
def parseDuration (parse : String → Option Int) (now : Int)
    (startedAt completedAt : String) : String × Option Int × Bool :=
  if startedAt = "" then ("-", none, false)
  else
    match parse startedAt with
    | none => ("-", none, false)
    | some start =>
      let ec : Int × Bool :=
        if completedAt ≠ "" then
          match parse completedAt with
          | some e => (e, true)
          | none => (now, false)
        else (now, false)
      let delta := ec.1 - start
      let delta := if delta < 0 then 0 else delta
      (formatDuration delta, some start, ec.2)

/-- Record `Check` from gh.go:39-46. -/
structure Check where
  Name : String
  Status : CheckStatus
  Duration : String
  DetailsURL : String
  StartedAt : Option Int
  Completed : Bool
deriving DecidableEq, Repr

/-- Record `ghCheckItem` from gh.go:62-74, the decoded upstream rollup record. -/
structure GhCheckItem where
  typename : String
  name : String
  context : String
  status : String
  conclusion : String
  state : String
  startedAt : String
  completedAt : String
  detailsURL : String
  targetURL : String
  workflowName : String
deriving DecidableEq, Repr

/-- Display-name selection from the loop body of `fetchPRData`, gh.go:200-209. -/
def ghName (item : GhCheckItem) : String :=
  let n1 := if item.name = "" then item.context else item.name
  let n2 := if n1 = "" then "unknown" else n1
  if item.workflowName ≠ "" then n2 ++ " (" ++ item.workflowName ++ ")" else n2

/-- Status-field precedence from `fetchPRData`, gh.go:211-218: conclusion if
non-empty, else status if non-empty, else state. -/
def itemStatus (item : GhCheckItem) : CheckStatus :=
  if item.conclusion ≠ "" then normalizeStatus item.conclusion
  else if item.status ≠ "" then normalizeStatus item.status
  else normalizeStatus item.state

/-- The spec's wording for the same selection (spec §4.1): "The first non-empty
of the three, in that order, is normalized." -/
def specStatusSource (item : GhCheckItem) : String :=
  (([item.conclusion, item.status, item.state]).find? (fun s => !(s = ""))).getD item.state

/-- Effective completion timestamp from `fetchPRData`, gh.go:220-223: a value
beginning with "0001" (Go's zero time rendered) is treated as absent. -/
def effCompletedAt (item : GhCheckItem) : String :=
  if goHasPre item.completedAt "0001" then "" else item.completedAt

/-- The force-completed rule from `fetchPRData`, gh.go:226-229: StatusContext
items never carry a completion timestamp, so a non-Running status implies
completion. -/
def forceCompleted (item : GhCheckItem) : Bool :=
  effCompletedAt item = "" ∧ item.typename = "StatusContext" ∧
    itemStatus item ≠ CheckStatus.Running

/-- The per-item pipeline of `fetchPRData`, gh.go:199-250: one upstream rollup
record becomes one `Check`. -/
def processCheckItem (parse : String → Option Int) (now : Int)
    (item : GhCheckItem) : Check :=
  let pd := parseDuration parse now item.startedAt (effCompletedAt item)
  let dur := if forceCompleted item then "???" else pd.1
  let completed := if forceCompleted item then true else pd.2.2
  let detailsURL := if item.detailsURL = "" then item.targetURL else item.detailsURL
  { Name := ghName item
    Status := itemStatus item
    Duration := dur
    DetailsURL := detailsURL
    StartedAt := pd.2.1
    Completed := completed }

/-- The comparison closure passed to `sort.Slice` in `fetchPRData`,
gh.go:252-257. -/
def checkLess (a b : Check) : Bool :=
  if a.Status ≠ b.Status then statusRank a.Status < statusRank b.Status
  else goStrLt a.Name b.Name

/-- Contract of Go's `sort.Slice` (an external standard-library routine), as
documented: the output is a permutation of the input in which no later element
is less than an earlier one. The documentation explicitly does NOT guarantee
stability ("The sort is not guaranteed to be stable"); `sort.SliceStable` is
the stable variant and is not the one gh.go:252 calls. -/
def sortSliceSpec (input output : List Check) : Prop :=
  List.Perm input output ∧ output.Pairwise (fun a b => checkLess b a = false)

/-- Function `truncate` from ui.go (src/unnamed/part_001:496-501). Go `len` counts
bytes and slicing is byte-wise, so the string is modelled here as its byte
sequence and the width as a Go int. -/
def truncate (s : List Nat) (maxWidth : Int) : List Nat :=
  if (s.length : Int) > maxWidth ∧ maxWidth > 0 then s.take maxWidth.toNat else s

/-- Record `PRSummary` from gh.go:130-136. -/
structure PRSummary where
  Repo : String
  Number : Int
  Title : String
  URL : String
  UpdatedAt : String
deriving DecidableEq, Repr

/-- Record `PRData` from gh.go:48-53. -/
structure PRData where
  Title : String
  HeadRefName : String
  URL : String
  Checks : List Check
deriving DecidableEq, Repr

/-- The two interaction modes of the session engine (spec §4.3). -/
inductive ViewMode where
  | selecting
  | viewing
deriving DecidableEq, Repr

/-- Modelled from the spec: the repository's current ui.go is not under src/
(only its test file ui_test.go and two earlier revisions of ui.go are), so the
session-state record is modelled from spec §3 "SessionState". Field names
follow the fields ui_test.go exercises (`selected`, `scrollOff`, `hideSkipped`,
`canGoBack`, ...). The refresh interval is carried in seconds. -/
structure SessionState where
  mode : ViewMode
  repo : String
  prNumber : String
  interval : Int
  prData : Option PRData
  err : Option String
  selected : Nat
  scrollOff : Nat
  hideSkipped : Bool
  canGoBack : Bool
  width : Nat
  height : Nat
  prs : List PRSummary
  loading : Bool
deriving DecidableEq, Repr

/-- Modelled from the spec: constructor for a session launched directly on a
target PR (spec §4.3 "if a specific repo+PR was given, start in Viewing");
hide-skipped defaults to true (spec §3) and the session cannot go back to the
picker (ui_test.go TestNewModel). -/
def newModel (repo prNumber : String) (interval : Int) : SessionState :=
  { mode := .viewing
    repo := repo
    prNumber := prNumber
    interval := interval
    prData := none
    err := none
    selected := 0
    scrollOff := 0
    hideSkipped := true
    canGoBack := false
    width := 0
    height := 0
    prs := []
    loading := false }

/-- Modelled from the spec: constructor for a session launched in picker mode
(spec §4.3 "otherwise start in Selecting with loading=true"); such a session
carries the can-go-back capability (ui_test.go TestNewSelectModel). -/
def newSelectModel (interval : Int) : SessionState :=
  { mode := .selecting
    repo := ""
    prNumber := ""
    interval := interval
    prData := none
    err := none
    selected := 0
    scrollOff := 0
    hideSkipped := true
    canGoBack := true
    width := 0
    height := 0
    prs := []
    loading := true }

/-- Modelled from the spec: `filteredChecks()` (spec §4.3 "Filtering") — the
full check list when hide-skipped is false, otherwise the subsequence of checks
whose status is not Skipped; the empty list when no data is held. -/
def filteredChecks (m : SessionState) : List Check :=
  match m.prData with
  | none => []
  | some d =>
    if m.hideSkipped then d.Checks.filter (fun c => decide (c.Status ≠ CheckStatus.Skipped))
    else d.Checks

/-- Visible data rows of the viewing-mode table: viewport height minus the 8
fixed chrome rows, with a minimum of 1 (src/unnamed/part_001:395-400, and
ui_test.go "height = 12 // maxRows = 12 - 8 = 4"). -/
def visibleRows (m : SessionState) : Nat :=
  max (m.height - 8) 1

/-- Length of the collection navigation acts on in the current mode: the PR
list in Selecting, the filtered check list in Viewing (spec §4.3). -/
def activeLen (m : SessionState) : Nat :=
  match m.mode with
  | .selecting => m.prs.length
  | .viewing => (filteredChecks m).length

/-- Modelled from the spec: scroll-offset maintenance after a selection-index
change in Viewing (spec §4.3): scroll just far enough to keep the selected row
inside the `visibleRows`-row window, otherwise leave the offset alone. -/
def adjustScroll (m : SessionState) : SessionState :=
  if m.selected ≥ m.scrollOff + visibleRows m then
    { m with scrollOff := m.selected + 1 - visibleRows m }
  else if m.selected < m.scrollOff then { m with scrollOff := m.selected }
  else m

/-- Modelled from the spec: selection moves one step up, clamped at 0 (no-op at the boundary); in
Viewing the scroll offset is then maintained (spec §4.3). -/
def moveUp (m : SessionState) : SessionState :=
  if m.selected > 0 then
    if m.mode = ViewMode.viewing then adjustScroll { m with selected := m.selected - 1 }
    else { m with selected := m.selected - 1 }
  else m

/-- Modelled from the spec: selection moves one step down, clamped at length−1 of the active
collection (no-op at the boundary); in Viewing the scroll offset is then
maintained (spec §4.3). -/
def moveDown (m : SessionState) : SessionState :=
  if m.selected + 1 < activeLen m then
    if m.mode = ViewMode.viewing then adjustScroll { m with selected := m.selected + 1 }
    else { m with selected := m.selected + 1 }
  else m

/-- Input events consumed by the session engine (spec §4.3). Arrow keys and
j/k are a single pair of navigation events; q and Ctrl-C are a single quit
event. Fetch results carry either a payload or an error message. -/
inductive Msg where
  | keyUp
  | keyDown
  | keyEnter
  | keyEsc
  | keyS
  | keyR
  | keyQuit
  | dataMsg (res : Except String PRData)
  | listMsg (res : Except String (List PRSummary))
  | tick
  | resize (w h : Nat)

/-- Follow-up action emitted alongside the new state (spec §2: "zero-or-one
follow-up actions"). -/
inductive Cmd where
  | nothing
  | quit
  | fetchData
  | fetchList
  | fetchDataAndTick
  | openURL (url : String)
deriving DecidableEq, Repr

/-- Placeholder summary used to model Go's in-range indexing `m.prs[m.selected]`. -/
def dfltPR : PRSummary :=
  { Repo := "", Number := 0, Title := "", URL := "", UpdatedAt := "" }

/-- Placeholder check used to model Go's in-range indexing of the check list. -/
def dfltCheck : Check :=
  { Name := "", Status := .Running, Duration := "", DetailsURL := "",
    StartedAt := none, Completed := false }

/-- Modelled from the spec: the state-transition function of the missing
ui.go's `Update` (spec §4.3 transition table, corroborated by ui_test.go).
On a successful data fetch the selection index is clamped against the newly
filtered check list and the scroll offset is clamped into
[0, max(0, filteredCount − visibleRows)] (spec §3 invariant). -/
def update (m : SessionState) (msg : Msg) : SessionState × Cmd :=
  match msg with
  | .keyQuit => (m, .quit)
  | .keyUp => (moveUp m, .nothing)
  | .keyDown => (moveDown m, .nothing)
  | .keyEnter =>
    match m.mode with
    | .selecting =>
      if m.prs.length > 0 then
        let pr := m.prs.getD m.selected dfltPR
        ({ m with
            mode := .viewing
            repo := pr.Repo
            prNumber := (toString pr.Number)
            selected := 0
            scrollOff := 0
            prData := none
            err := none },
          .fetchDataAndTick)
      else (m, .nothing)
    | .viewing =>
      let fc := filteredChecks m
      if fc.length > 0 then
        let c := fc.getD m.selected dfltCheck
        (m, if c.DetailsURL ≠ "" then .openURL c.DetailsURL else .nothing)
      else (m, .nothing)
  | .keyEsc =>
    if m.mode = .viewing ∧ m.canGoBack then
      ({ m with
          mode := .selecting
          selected := 0
          scrollOff := 0
          prData := none
          loading := true }, .fetchList)
    else (m, .nothing)
  | .keyS =>
    if m.mode = .viewing then
      ({ m with hideSkipped := !m.hideSkipped, selected := 0, scrollOff := 0 },
        .nothing)
    else (m, .nothing)
  | .keyR =>
    match m.mode with
    | .selecting => ({ m with loading := true }, .fetchList)
    | .viewing => (m, .fetchData)
  | .listMsg res =>
    match res with
    | .error e => ({ m with loading := false, err := some e }, .nothing)
    | .ok l => ({ m with loading := false, prs := l, err := none, selected := 0 },
        .nothing)
  | .dataMsg res =>
    match res with
    | .error e => ({ m with err := some e }, .nothing)
    | .ok d =>
      ({ m with
          prData := some d
          err := none
          selected :=
            if 0 < (filteredChecks { m with prData := some d, err := none }).length then
              (if m.selected ≥
                  (filteredChecks { m with prData := some d, err := none }).length then
                (filteredChecks { m with prData := some d, err := none }).length - 1
              else m.selected)
            else 0
          scrollOff :=
            if (filteredChecks { m with prData := some d, err := none }).length >
                visibleRows m then
              min m.scrollOff
                ((filteredChecks { m with prData := some d, err := none }).length -
                  visibleRows m)
            else 0 }, .nothing)
  | .tick =>
    match m.mode with
    | .viewing => (m, .fetchDataAndTick)
    | .selecting => (m, .nothing)
  | .resize w h => ({ m with width := w, height := h }, .nothing)

/-- The raw (unfiltered) check list held by the session, empty when no data
has arrived yet. -/
def checksOf (m : SessionState) : List Check :=
  match m.prData with
  | none => []
  | some d => d.Checks

/-- The two navigation inputs of claim-level interest: move selection up or
down (arrow keys and k/j alike). -/
inductive NavEvent where
  | up
  | down

/-- Interpretation of a navigation event as an engine input. -/
def navMsg : NavEvent → Msg
  | .up => .keyUp
  | .down => .keyDown

/-- Apply a sequence of navigation events to a session state. -/
def applyNav (m : SessionState) (evs : List NavEvent) : SessionState :=
  evs.foldl (fun s e => (update s (navMsg e)).1) m

/-- The events that change the selection index in Viewing mode: navigation,
the filter toggle, and the arrival of a data-fetch result. -/
inductive SelEvent where
  | up
  | down
  | toggle
  | dataOk (d : PRData)
  | dataErr (e : String)

/-- Interpretation of a selection-affecting event as an engine input. -/
def selMsg : SelEvent → Msg
  | .up => .keyUp
  | .down => .keyDown
  | .toggle => .keyS
  | .dataOk d => .dataMsg (.ok d)
  | .dataErr e => .dataMsg (.error e)

/-- Apply a sequence of selection-affecting events to a session state. -/
def applySel (m : SessionState) (evs : List SelEvent) : SessionState :=
  evs.foldl (fun s e => (update s (selMsg e)).1) m

/-- Selection-index invariant over the active collection (spec §3): the index
is strictly below the collection length when the collection is non-empty, and
pinned to 0 when it is empty. -/
def SelInv (m : SessionState) : Prop :=
  (0 < activeLen m → m.selected < activeLen m) ∧
  (activeLen m = 0 → m.selected = 0)

/-- Scroll-offset invariant (spec §4.3 / §8): when the filtered list overflows
the viewport the selected row lies inside the scroll window, and when it fits
the scroll offset is 0. -/
def ScrollInv (m : SessionState) : Prop :=
  ((filteredChecks m).length > visibleRows m →
    m.scrollOff ≤ m.selected ∧ m.selected ≤ m.scrollOff + visibleRows m - 1) ∧
  ((filteredChecks m).length ≤ visibleRows m → m.scrollOff = 0)

/-- Concrete check fixture: a passed build check. -/
def ckBuild : Check :=
  { Name := "build", Status := .Pass, Duration := "1m30s", DetailsURL := "https://b",
    StartedAt := some 0, Completed := true }

/-- Concrete check fixture: a failed lint check. -/
def ckLint : Check :=
  { Name := "lint", Status := .Fail, Duration := "20s", DetailsURL := "https://l",
    StartedAt := some 0, Completed := true }

/-- Concrete check fixture: a skipped check. -/
def ckSkip : Check :=
  { Name := "skip1", Status := .Skipped, Duration := "", DetailsURL := "",
    StartedAt := none, Completed := true }

/-- Two checks that agree on status and name but differ in their details URL:
the status-then-name comparator cannot tell them apart. -/
def ckDupA : Check :=
  { Name := "build", Status := .Pass, Duration := "1s", DetailsURL := "https://a",
    StartedAt := none, Completed := true }

/-- Second of the two comparator-equal checks; see `ckDupA`. -/
def ckDupB : Check :=
  { Name := "build", Status := .Pass, Duration := "9s", DetailsURL := "https://z",
    StartedAt := none, Completed := true }

/-- Concrete RFC3339-parser stand-in for witnesses: recognizes two timestamps. -/
def parseW : String → Option Int :=
  fun s => if s = "2024-01-01T10:01:40Z" then some 100
    else if s = "2024-01-01T10:00:40Z" then some 40
    else none

/-- Concrete upstream record of the StatusContext kind with a terminal state
and no completion timestamp (the shape of ui_test.go's Jenkins example). -/
def itemW : GhCheckItem :=
  { typename := "StatusContext", name := "", context := "ci/jenkins",
    status := "", conclusion := "", state := "SUCCESS",
    startedAt := "2024-01-01T10:00:40Z", completedAt := "",
    detailsURL := "", targetURL := "https://j", workflowName := "" }

/-- Concrete viewing-mode session fixture holding one passed, one failed and
one skipped check, with the hide-skipped filter on. -/
def mViewW : SessionState :=
  { newModel "o/r" "1" 5 with
      width := 80
      height := 30
      prData := some
        { Title := "T"
          HeadRefName := "h"
          URL := ""
          Checks := [ckLint, ckBuild, ckSkip] } }

/-- Concrete viewing-mode session fixture with a stale selection index 5, used
to exercise clamping on data arrival. -/
def mSel5W : SessionState :=
  { newModel "o/r" "1" 5 with
      width := 80
      height := 30
      selected := 5 }

/-- Concrete data fixture with exactly two non-skipped checks. -/
def dTwoW : PRData :=
  { Title := "T", HeadRefName := "h", URL := "", Checks := [ckLint, ckBuild, ckSkip] }

/-- Concrete short-viewport viewing-mode fixture (height 12, so 4 visible
rows) holding six checks, matching ui_test.go's scroll scenario. -/
def mScrollW : SessionState :=
  { newModel "o/r" "1" 5 with
      width := 80
      height := 12
      hideSkipped := false
      prData := some
        { Title := "T"
          HeadRefName := "h"
          URL := ""
          Checks := [
            { ckBuild with Name := "a" }, { ckBuild with Name := "b" },
            { ckBuild with Name := "c" }, { ckBuild with Name := "d" },
            { ckBuild with Name := "e" }, { ckBuild with Name := "f" }] } }

theorem statusRank_injective (s t : CheckStatus) (h : statusRank s = statusRank t) :
    s = t := by
  cases s <;> cases t <;> first | rfl | simp [statusRank] at h

theorem effCompletedAt_empty_iff (item : GhCheckItem) :
    effCompletedAt item = "" ↔
      (item.completedAt = "" ∨ goHasPre item.completedAt "0001" = true) := by
  unfold effCompletedAt
  by_cases h : goHasPre item.completedAt "0001" = true
  · simp [h]
  · simp [h]

/-- C1: `normalizeStatus` is total (it is a Lean function) and agrees, on every
input string, with the spec's documented table applied to the upper-cased,
whitespace-trimmed input: SUCCESS/PASS ↦ Pass; FAILURE/FAIL/ERROR/TIMED_OUT/
ACTION_REQUIRED/STARTUP_FAILURE ↦ Fail; IN_PROGRESS/RUNNING/PENDING/QUEUED/
WAITING/REQUESTED ↦ Running; SKIPPED/CANCELLED/NEUTRAL/STALE ↦ Skipped; every
other string, the empty string included, ↦ Running. -/
theorem normalizeStatus_matches_table (raw : String) :
    normalizeStatus raw = specStatusTable (goToUpper (goTrimSpace raw)) := by
  unfold normalizeStatus specStatusTable
  simp only [List.mem_cons, List.mem_singleton, List.not_mem_nil, or_false]
  split_ifs <;> rfl

/-- C6: the string handed to `normalizeStatus` for an upstream record is chosen
by fixed precedence — the conclusion field when non-empty, else the status
field when non-empty, else the state field (the spec's "first non-empty of the
three, in that order"). -/
theorem status_field_precedence (parse : String → Option Int) (now : Int)
    (item : GhCheckItem) :
    (processCheckItem parse now item).Status = normalizeStatus (specStatusSource item) := by
  show itemStatus item = normalizeStatus (specStatusSource item)
  unfold itemStatus specStatusSource
  by_cases hc : item.conclusion = ""
  · by_cases hs : item.status = ""
    · by_cases hst : item.state = "" <;> simp [hc, hs, hst, List.find?]
    · simp [hc, hs, List.find?]
  · simp [hc, List.find?]

/-- C7: a StatusContext record with an absent completion timestamp (empty, or
the zero-value timestamp beginning with "0001") and a normalized status other
than Running gets its completed flag forced to true and the placeholder
duration "???"; any record not meeting all three conditions keeps the duration
and completed flag computed from its timestamps by `parseDuration`. -/
theorem status_context_placeholder (parse : String → Option Int) (now : Int)
    (item : GhCheckItem) :
    (((item.completedAt = "" ∨ goHasPre item.completedAt "0001" = true) ∧
        item.typename = "StatusContext" ∧ itemStatus item ≠ CheckStatus.Running) →
      (processCheckItem parse now item).Completed = true ∧
      (processCheckItem parse now item).Duration = "???") ∧
    (¬((item.completedAt = "" ∨ goHasPre item.completedAt "0001" = true) ∧
        item.typename = "StatusContext" ∧ itemStatus item ≠ CheckStatus.Running) →
      (processCheckItem parse now item).Completed =
        (parseDuration parse now item.startedAt (effCompletedAt item)).2.2 ∧
      (processCheckItem parse now item).Duration =
        (parseDuration parse now item.startedAt (effCompletedAt item)).1) := by
  have hiff : forceCompleted item = true ↔
      ((item.completedAt = "" ∨ goHasPre item.completedAt "0001" = true) ∧
        item.typename = "StatusContext" ∧ itemStatus item ≠ CheckStatus.Running) := by
    unfold forceCompleted
    rw [← effCompletedAt_empty_iff]
    simp
  constructor
  · intro hcond
    have hf : forceCompleted item = true := hiff.mpr hcond
    unfold processCheckItem
    simp [hf]
  · intro hcond
    have hf : forceCompleted item = false := by
      cases h : forceCompleted item
      · rfl
      · exact absurd (hiff.mp h) hcond
    unfold processCheckItem
    simp [hf]

/-- Witness for C7 at a concrete StatusContext record with state SUCCESS and
no completion timestamp: the check is reported completed with duration "???". -/
theorem status_context_placeholder_witness :
    (processCheckItem parseW 0 itemW).Completed = true ∧
    (processCheckItem parseW 0 itemW).Duration = "???" :=
  (status_context_placeholder parseW 0 itemW).1
    (by refine ⟨Or.inl ?_, ?_, ?_⟩ <;> decide)

/-- C9: `truncate` returns its input unchanged when the width is zero or
negative or when the byte length already fits, and otherwise keeps exactly the
first maxWidth bytes; a width of 0 therefore disables truncation rather than
emptying the string, and cutting is byte-wise, so the two-byte UTF-8 character
0xC3 0xA9 ("é") can be split after its first byte. -/
theorem truncate_byte_semantics (s : List Nat) (w : Int) :
    (w ≤ 0 → truncate s w = s) ∧
    ((s.length : Int) ≤ w → truncate s w = s) ∧
    (0 < w → w < (s.length : Int) → truncate s w = s.take w.toNat) ∧
    truncate [195, 169] 1 = [195] := by
  refine ⟨?_, ?_, ?_, by decide⟩
  · intro hw
    unfold truncate
    rw [if_neg]
    rintro ⟨-, h2⟩
    omega
  · intro hle
    unfold truncate
    rw [if_neg]
    rintro ⟨h1, -⟩
    omega
  · intro hw hlen
    unfold truncate
    rw [if_pos ⟨hlen, hw⟩]

/-- Witness for C9: a string shorter than the width, a zero width, and a
genuine truncation, each at concrete bytes. -/
theorem truncate_byte_semantics_witness :
    truncate [104, 105] 5 = [104, 105] ∧
    truncate [104, 105] 0 = [104, 105] ∧
    truncate [104, 105, 33] 2 = [104, 105] := by
  refine ⟨(truncate_byte_semantics [104, 105] 5).2.1 (by decide),
    (truncate_byte_semantics [104, 105] 0).1 (by decide), ?_⟩
  have h := (truncate_byte_semantics [104, 105, 33] 2).2.2.1 (by decide) (by decide)
  simpa using h

/-- C10: `parseDuration` never reports a negative elapsed time — an end time
before the start clamps the duration to "0s" (both for a parsed completion
time and for the live clock); an empty or unparsable startedAt yields the
placeholder "-" with the zero start time and completed = false; and a present
but unparsable completedAt leaves the check uncompleted with the duration
measured against the current clock. -/
theorem parseDuration_clamps_and_falls_back (parse : String → Option Int)
    (now : Int) (s c : String) :
    (s = "" → parseDuration parse now s c = ("-", none, false)) ∧
    (parse s = none → parseDuration parse now s c = ("-", none, false)) ∧
    (∀ st e, s ≠ "" → parse s = some st → c ≠ "" → parse c = some e → e < st →
      parseDuration parse now s c = ("0s", some st, true)) ∧
    (∀ st, s ≠ "" → parse s = some st → c = "" → now < st →
      parseDuration parse now s c = ("0s", some st, false)) ∧
    (∀ st, s ≠ "" → parse s = some st → c ≠ "" → parse c = none →
      parseDuration parse now s c =
        (formatDuration (if now - st < 0 then 0 else now - st), some st, false)) := by
  have h0s : formatDuration 0 = "0s" := by decide
  refine ⟨?_, ?_, ?_, ?_, ?_⟩
  · intro hs
    unfold parseDuration
    rw [if_pos hs]
  · intro hp
    unfold parseDuration
    by_cases hs : s = ""
    · rw [if_pos hs]
    · rw [if_neg hs, hp]
  · intro st e hs hst hc hce hlt
    unfold parseDuration
    rw [if_neg hs, hst]
    simp [hc, hce, show e - st < 0 by omega, h0s]
  · intro st hs hst hc hlt
    unfold parseDuration
    rw [if_neg hs, hst]
    simp [hc, show now - st < 0 by omega, h0s]
  · intro st hs hst hc hcn
    unfold parseDuration
    rw [if_neg hs, hst]
    simp [hc, hcn]

/-- Witness for C10: with a parser recognizing two concrete timestamps, an end
time 60 seconds before the start clamps to "0s", and an empty startedAt gives
the placeholder triple. -/
theorem parseDuration_clamps_witness :
    parseDuration parseW 0 "2024-01-01T10:01:40Z" "2024-01-01T10:00:40Z" =
      ("0s", some 100, true) ∧
    parseDuration parseW 0 "" "2024-01-01T10:00:40Z" = ("-", none, false) := by
  constructor
  · exact (parseDuration_clamps_and_falls_back parseW 0 "2024-01-01T10:01:40Z"
      "2024-01-01T10:00:40Z").2.2.1 100 40 (by decide) (by decide) (by decide)
      (by decide) (by decide)
  · exact (parseDuration_clamps_and_falls_back parseW 0 ""
      "2024-01-01T10:00:40Z").1 (by decide)

theorem charListLt_asymm_eq (a b : List Char)
    (h1 : charListLt a b = false) (h2 : charListLt b a = false) : a = b := by
  induction a generalizing b with
  | nil =>
    cases b with
    | nil => rfl
    | cons x xs => simp [charListLt] at h1
  | cons x xs ih =>
    cases b with
    | nil => simp [charListLt] at h2
    | cons y ys =>
      simp only [charListLt] at h1 h2
      by_cases hxy : x < y
      · simp [hxy] at h1
      · by_cases hyx : y < x
        · simp [hxy, hyx] at h2
        · have hx : x = y := le_antisymm (not_lt.mp hyx) (not_lt.mp hxy)
          simp [hxy, hyx] at h1 h2
          rw [hx, ih ys h1 h2]

theorem goStrLt_asymm_eq (a b : String)
    (h1 : goStrLt a b = false) (h2 : goStrLt b a = false) : a = b := by
  apply String.ext
  exact charListLt_asymm_eq a.toList b.toList h1 h2

/-- Counterexample for C2: the claim asserts that the output of the sort in
`fetchPRData` keeps comparator-equal checks in input order, but gh.go:252
calls `sort.Slice`, whose documented contract guarantees only an ordered
permutation and explicitly NOT stability. The ordered permutation
[ckDupB, ckDupA] of the input [ckDupA, ckDupB] satisfies that contract while
swapping two checks of equal status and equal name, so the code does not
provide the claimed guarantee. -/
theorem checks_sort_stability_cex :
    sortSliceSpec [ckDupA, ckDupB] [ckDupB, ckDupA] ∧
    ckDupA.Status = ckDupB.Status ∧ ckDupA.Name = ckDupB.Name ∧
    ckDupA ≠ ckDupB := by
  refine ⟨⟨?_, ?_⟩, by decide, by decide, by decide⟩
  · decide
  · decide

/-- C2 (amended): any output the sort in `fetchPRData` may produce — i.e. any
list satisfying `sort.Slice`'s documented contract for the status-then-name
comparator — is a permutation of the input ordered primarily by status rank
ascending (Running=0, Fail=1, Pass=2, Skipped=3) and secondarily by name
ascending; checks with equal status and equal name, however, may appear in
either relative order, because `sort.Slice` (unlike `sort.SliceStable`) is not
stable. -/
theorem checks_sort_ordered (input output : List Check)
    (h : sortSliceSpec input output) :
    List.Perm input output ∧
    output.Pairwise (fun a b =>
      statusRank a.Status < statusRank b.Status ∨
      (a.Status = b.Status ∧ (a.Name = b.Name ∨ goStrLt a.Name b.Name = true))) := by
  refine ⟨h.1, List.Pairwise.imp ?_ h.2⟩
  intro a b hab
  unfold checkLess at hab
  by_cases hst : b.Status = a.Status
  · right
    rw [if_neg (by simp [hst])] at hab
    refine ⟨hst.symm, ?_⟩
    by_cases hlt : goStrLt a.Name b.Name = true
    · exact Or.inr hlt
    · exact Or.inl ((goStrLt_asymm_eq a.Name b.Name
        (Bool.not_eq_true _ ▸ hlt) hab).symm ▸ rfl)
  · left
    rw [if_pos (by simp [hst])] at hab
    have hle : ¬ statusRank b.Status < statusRank a.Status := by
      simpa using hab
    have hne : statusRank a.Status ≠ statusRank b.Status := by
      intro hr
      exact hst (statusRank_injective b.Status a.Status (by omega))
    omega

/-- Witness for C2 (amended) at a concrete contract-satisfying output: the
failed lint check precedes the passed build check. -/
theorem checks_sort_ordered_witness :
    List.Perm [ckBuild, ckLint] [ckLint, ckBuild] ∧
    [ckLint, ckBuild].Pairwise (fun a b =>
      statusRank a.Status < statusRank b.Status ∨
      (a.Status = b.Status ∧ (a.Name = b.Name ∨ goStrLt a.Name b.Name = true))) :=
  checks_sort_ordered [ckBuild, ckLint] [ckLint, ckBuild] ⟨by decide, by decide⟩

/-- C4: the session's hide-skipped flag defaults to true in both constructors;
`filteredChecks` is the full held check list when the flag is false and the
order-preserving Skipped-free subsequence (whose length is the count of
non-Skipped checks) when it is true; and the filter-toggle input in Viewing
mode flips the flag and resets selection index and scroll offset to 0. -/
theorem hide_skipped_filtering (m : SessionState) (interval : Int)
    (repo pr : String) :
    (newModel repo pr interval).hideSkipped = true ∧
    (newSelectModel interval).hideSkipped = true ∧
    (m.hideSkipped = false → filteredChecks m = checksOf m) ∧
    (m.hideSkipped = true →
      filteredChecks m =
        (checksOf m).filter (fun c => decide (c.Status ≠ CheckStatus.Skipped)) ∧
      (filteredChecks m).length =
        (checksOf m).countP (fun c => decide (c.Status ≠ CheckStatus.Skipped))) ∧
    (m.mode = ViewMode.viewing →
      update m Msg.keyS =
        ({ m with hideSkipped := !m.hideSkipped, selected := 0, scrollOff := 0 },
          Cmd.nothing)) := by
  refine ⟨rfl, rfl, ?_, ?_, ?_⟩
  · intro h
    unfold filteredChecks checksOf
    cases m.prData <;> simp [h]
  · intro h
    have hfc : filteredChecks m =
        (checksOf m).filter (fun c => decide (c.Status ≠ CheckStatus.Skipped)) := by
      unfold filteredChecks checksOf
      cases m.prData <;> simp [h]
    exact ⟨hfc, by rw [hfc, ← List.countP_eq_length_filter]⟩
  · intro h
    unfold update
    simp [h]

/-- Witness for C4 at the concrete three-check session `mViewW`: filtering
drops the skipped check, and the toggle clears the flag and both positions. -/
theorem hide_skipped_filtering_witness :
    filteredChecks mViewW =
      (checksOf mViewW).filter (fun c => decide (c.Status ≠ CheckStatus.Skipped)) ∧
    update mViewW Msg.keyS =
      ({ mViewW with
          hideSkipped := !mViewW.hideSkipped
          selected := 0
          scrollOff := 0 }, Cmd.nothing) :=
  ⟨((hide_skipped_filtering mViewW 5 "" "").2.2.2.1 (by decide)).1,
    (hide_skipped_filtering mViewW 5 "" "").2.2.2.2 (by decide)⟩

/-- C5: merging a data-fetch result into any session state — on success the
new PRData replaces the old, the error is cleared, and the selection index is
clamped to min(old, count−1) of the newly filtered check list (0 when that
list is empty); on failure only the error is set, the held PRData and
everything else unchanged. -/
theorem data_fetch_merge (m : SessionState) (d : PRData) (e : String) :
    ((update m (Msg.dataMsg (Except.ok d))).1.prData = some d) ∧
    ((update m (Msg.dataMsg (Except.ok d))).1.err = none) ∧
    (0 < (filteredChecks { m with prData := some d, err := none }).length →
      (update m (Msg.dataMsg (Except.ok d))).1.selected =
        min m.selected
          ((filteredChecks { m with prData := some d, err := none }).length - 1)) ∧
    ((filteredChecks { m with prData := some d, err := none }).length = 0 →
      (update m (Msg.dataMsg (Except.ok d))).1.selected = 0) ∧
    ((update m (Msg.dataMsg (Except.error e))).1 = { m with err := some e }) := by
  have hsel : (update m (Msg.dataMsg (Except.ok d))).1.selected =
      (if 0 < (filteredChecks { m with prData := some d, err := none }).length then
        (if m.selected ≥ (filteredChecks { m with prData := some d, err := none }).length
          then (filteredChecks { m with prData := some d, err := none }).length - 1
          else m.selected)
      else 0) := rfl
  refine ⟨rfl, rfl, ?_, ?_, rfl⟩
  · intro hn
    rw [hsel, if_pos hn]
    split_ifs <;> omega
  · intro hn
    rw [hsel, if_neg (by omega)]

/-- Witness for C5: a stale selection index 5 merged with data holding two
non-skipped checks clamps to 1, and a failed fetch only records the error. -/
theorem data_fetch_merge_witness :
    (update mSel5W (Msg.dataMsg (Except.ok dTwoW))).1.selected = 1 ∧
    (update mSel5W (Msg.dataMsg (Except.error "boom"))).1 =
      { mSel5W with err := some "boom" } := by
  constructor
  · have h := (data_fetch_merge mSel5W dTwoW "boom").2.2.1 (by decide)
    simpa using h
  · exact (data_fetch_merge mSel5W dTwoW "boom").2.2.2.2

theorem filteredChecks_eq (m m' : SessionState) (hd : m'.prData = m.prData)
    (hh : m'.hideSkipped = m.hideSkipped) : filteredChecks m' = filteredChecks m := by
  unfold filteredChecks
  rw [hd, hh]

theorem visibleRows_eq (m m' : SessionState) (hh : m'.height = m.height) :
    visibleRows m' = visibleRows m := by
  unfold visibleRows
  rw [hh]

theorem activeLen_eq (m m' : SessionState) (hm : m'.mode = m.mode)
    (hp : m'.prs = m.prs) (hd : m'.prData = m.prData)
    (hh : m'.hideSkipped = m.hideSkipped) : activeLen m' = activeLen m := by
  unfold activeLen
  rw [hm, hp, filteredChecks_eq m m' hd hh]

theorem adjustScroll_selected (m : SessionState) :
    (adjustScroll m).selected = m.selected := by
  unfold adjustScroll
  split_ifs <;> rfl

theorem adjustScroll_mode (m : SessionState) :
    (adjustScroll m).mode = m.mode := by
  unfold adjustScroll
  split_ifs <;> rfl

theorem adjustScroll_prs (m : SessionState) :
    (adjustScroll m).prs = m.prs := by
  unfold adjustScroll
  split_ifs <;> rfl

theorem adjustScroll_prData (m : SessionState) :
    (adjustScroll m).prData = m.prData := by
  unfold adjustScroll
  split_ifs <;> rfl

theorem adjustScroll_hideSkipped (m : SessionState) :
    (adjustScroll m).hideSkipped = m.hideSkipped := by
  unfold adjustScroll
  split_ifs <;> rfl

theorem adjustScroll_height (m : SessionState) :
    (adjustScroll m).height = m.height := by
  unfold adjustScroll
  split_ifs <;> rfl

theorem adjustScroll_activeLen (m : SessionState) :
    activeLen (adjustScroll m) = activeLen m :=
  activeLen_eq m (adjustScroll m) (adjustScroll_mode m) (adjustScroll_prs m)
    (adjustScroll_prData m) (adjustScroll_hideSkipped m)

theorem moveUp_selected (m : SessionState) :
    (moveUp m).selected = m.selected - 1 := by
  unfold moveUp
  split_ifs with h1 h2
  · rw [adjustScroll_selected]
  · rfl
  · omega

theorem moveUp_activeLen (m : SessionState) :
    activeLen (moveUp m) = activeLen m := by
  unfold moveUp
  split_ifs with h1 h2
  · rw [adjustScroll_activeLen]
    exact activeLen_eq m _ rfl rfl rfl rfl
  · exact activeLen_eq m _ rfl rfl rfl rfl
  · rfl

theorem moveDown_selected (m : SessionState) :
    (moveDown m).selected =
      if m.selected + 1 < activeLen m then m.selected + 1 else m.selected := by
  unfold moveDown
  split_ifs with h1 h2 <;> first | rw [adjustScroll_selected] | rfl

theorem moveDown_activeLen (m : SessionState) :
    activeLen (moveDown m) = activeLen m := by
  unfold moveDown
  split_ifs with h1 h2
  · rw [adjustScroll_activeLen]
    exact activeLen_eq m _ rfl rfl rfl rfl
  · exact activeLen_eq m _ rfl rfl rfl rfl
  · rfl

theorem nav_step_inv (m : SessionState) (e : NavEvent) (h : SelInv m) :
    SelInv (update m (navMsg e)).1 ∧
    activeLen (update m (navMsg e)).1 = activeLen m := by
  obtain ⟨h1, h2⟩ := h
  cases e
  · show SelInv (moveUp m) ∧ activeLen (moveUp m) = activeLen m
    refine ⟨⟨?_, ?_⟩, moveUp_activeLen m⟩
    · intro hpos
      rw [moveUp_activeLen] at hpos ⊢
      rw [moveUp_selected]
      have := h1 hpos
      omega
    · intro hzero
      rw [moveUp_activeLen] at hzero
      rw [moveUp_selected, h2 hzero]
  · show SelInv (moveDown m) ∧ activeLen (moveDown m) = activeLen m
    refine ⟨⟨?_, ?_⟩, moveDown_activeLen m⟩
    · intro hpos
      rw [moveDown_activeLen] at hpos ⊢
      rw [moveDown_selected]
      have := h1 hpos
      split_ifs <;> omega
    · intro hzero
      rw [moveDown_activeLen] at hzero
      rw [moveDown_selected]
      simp [hzero, h2 hzero]

theorem nav_run_inv (evs : List NavEvent) (m : SessionState) (h : SelInv m) :
    SelInv (applyNav m evs) ∧ activeLen (applyNav m evs) = activeLen m := by
  induction evs generalizing m with
  | nil => exact ⟨h, rfl⟩
  | cons e evs ih =>
    have hstep := nav_step_inv m e h
    have hrec := ih (update m (navMsg e)).1 hstep.1
    exact ⟨hrec.1, hrec.2.trans hstep.2⟩

theorem moveUp_noop (m : SessionState) (h : m.selected = 0) : moveUp m = m := by
  unfold moveUp
  rw [if_neg (by omega)]

theorem moveDown_noop (m : SessionState) (h : ¬ m.selected + 1 < activeLen m) :
    moveDown m = m := by
  unfold moveDown
  rw [if_neg h]

/-- C8: from selection index 0, any sequence of move-up/move-down events over
the collection active for the current mode (the PR list in Selecting, the
filtered check list in Viewing) keeps the index inside [0, N−1] when that
collection has N > 0 items and at 0 when it is empty, and a move at either
boundary leaves the state unchanged. -/
theorem nav_selection_bounds (m : SessionState) (h0 : m.selected = 0)
    (evs : List NavEvent) :
    (0 < activeLen m → (applyNav m evs).selected < activeLen m) ∧
    (activeLen m = 0 → (applyNav m evs).selected = 0) ∧
    ((applyNav m evs).selected = 0 →
      (update (applyNav m evs) (navMsg NavEvent.up)).1 = applyNav m evs) ∧
    ((applyNav m evs).selected + 1 = activeLen m →
      (update (applyNav m evs) (navMsg NavEvent.down)).1 = applyNav m evs) := by
  have hinv : SelInv m := ⟨fun hpos => by omega, fun _ => h0⟩
  have hrun := nav_run_inv evs m hinv
  refine ⟨fun hpos => ?_, fun hzero => ?_, fun hb => ?_, fun hb => ?_⟩
  · have hsel := hrun.1.1 (by rw [hrun.2]; exact hpos)
    rw [hrun.2] at hsel
    exact hsel
  · exact hrun.1.2 (by rw [hrun.2]; exact hzero)
  · show moveUp (applyNav m evs) = applyNav m evs
    exact moveUp_noop _ hb
  · show moveDown (applyNav m evs) = applyNav m evs
    refine moveDown_noop _ ?_
    rw [hrun.2]
    omega

/-- Witness for C8: three consecutive move-downs over the two-item filtered
list of `mViewW` leave the selection inside [0, 1]. -/
theorem nav_selection_bounds_witness :
    (applyNav mViewW [NavEvent.down, NavEvent.down, NavEvent.down]).selected <
      activeLen mViewW :=
  (nav_selection_bounds mViewW (by decide)
    [NavEvent.down, NavEvent.down, NavEvent.down]).1 (by decide)

theorem visibleRows_pos (m : SessionState) : 1 ≤ visibleRows m :=
  le_max_right _ _

theorem activeLen_viewing (m : SessionState) (h : m.mode = ViewMode.viewing) :
    activeLen m = (filteredChecks m).length := by
  unfold activeLen
  rw [h]

theorem moveUp_mode (m : SessionState) : (moveUp m).mode = m.mode := by
  unfold moveUp
  split_ifs <;> first | rw [adjustScroll_mode] | rfl

theorem moveDown_mode (m : SessionState) : (moveDown m).mode = m.mode := by
  unfold moveDown
  split_ifs <;> first | rw [adjustScroll_mode] | rfl

theorem adjustScroll_scrollOff (m : SessionState) :
    (adjustScroll m).scrollOff =
      (if m.selected ≥ m.scrollOff + visibleRows m then m.selected + 1 - visibleRows m
      else if m.selected < m.scrollOff then m.selected
      else m.scrollOff) := by
  unfold adjustScroll
  split_ifs <;> rfl

theorem adjustScroll_scrollInv (m : SessionState)
    (h2 : (filteredChecks m).length ≤ visibleRows m →
      m.scrollOff = 0 ∧ m.selected < visibleRows m) :
    ScrollInv (adjustScroll m) := by
  have hvr := visibleRows_pos m
  have hfc : filteredChecks (adjustScroll m) = filteredChecks m :=
    filteredChecks_eq m _ (adjustScroll_prData m) (adjustScroll_hideSkipped m)
  have hvr2 : visibleRows (adjustScroll m) = visibleRows m :=
    visibleRows_eq m _ (adjustScroll_height m)
  unfold ScrollInv
  rw [hfc, hvr2, adjustScroll_selected, adjustScroll_scrollOff]
  constructor
  · intro hn
    split_ifs <;> omega
  · intro hn
    have hflat := h2 hn
    split_ifs <;> omega

theorem sel_step_inv (m : SessionState) (e : SelEvent)
    (hmode : m.mode = ViewMode.viewing) (hs : SelInv m) (hc : ScrollInv m) :
    (update m (selMsg e)).1.mode = ViewMode.viewing ∧
    SelInv (update m (selMsg e)).1 ∧ ScrollInv (update m (selMsg e)).1 := by
  have hvr := visibleRows_pos m
  have hsel1 : 0 < (filteredChecks m).length → m.selected < (filteredChecks m).length := by
    rw [← activeLen_viewing m hmode]
    exact hs.1
  have hsel2 : (filteredChecks m).length = 0 → m.selected = 0 := by
    rw [← activeLen_viewing m hmode]
    exact hs.2
  cases e
  case up =>
    refine ⟨?_, (nav_step_inv m NavEvent.up hs).1, ?_⟩
    · show (moveUp m).mode = ViewMode.viewing
      rw [moveUp_mode, hmode]
    · show ScrollInv (moveUp m)
      unfold moveUp
      by_cases h1 : m.selected > 0
      · rw [if_pos h1, if_pos hmode]
        refine adjustScroll_scrollInv _ ?_
        intro hn
        have hn' : (filteredChecks m).length ≤ visibleRows m := hn
        refine ⟨hc.2 hn', ?_⟩
        show m.selected - 1 < visibleRows m
        rcases Nat.eq_zero_or_pos (filteredChecks m).length with h0 | hp
        · have := hsel2 h0
          omega
        · have := hsel1 hp
          omega
      · rw [if_neg h1]
        exact hc
  case down =>
    refine ⟨?_, (nav_step_inv m NavEvent.down hs).1, ?_⟩
    · show (moveDown m).mode = ViewMode.viewing
      rw [moveDown_mode, hmode]
    · show ScrollInv (moveDown m)
      unfold moveDown
      by_cases h1 : m.selected + 1 < activeLen m
      · rw [if_pos h1, if_pos hmode]
        refine adjustScroll_scrollInv _ ?_
        intro hn
        have hn' : (filteredChecks m).length ≤ visibleRows m := hn
        have h1' : m.selected + 1 < (filteredChecks m).length := by
          rw [← activeLen_viewing m hmode]
          exact h1
        refine ⟨hc.2 hn', ?_⟩
        show m.selected + 1 < visibleRows m
        omega
      · rw [if_neg h1]
        exact hc
  case toggle =>
    have hu : update m Msg.keyS =
        ({ m with hideSkipped := !m.hideSkipped, selected := 0, scrollOff := 0 },
          Cmd.nothing) := by
      unfold update
      rw [if_pos hmode]
    rw [show selMsg SelEvent.toggle = Msg.keyS from rfl, hu]
    refine ⟨hmode, ⟨fun hpos => hpos, fun _ => rfl⟩, ⟨fun _ => ?_, fun _ => rfl⟩⟩
    exact ⟨Nat.le_refl 0, Nat.zero_le _⟩
  case dataErr e =>
    exact ⟨hmode, hs, hc⟩
  case dataOk d =>
    have hso_le : m.scrollOff ≤ m.selected := by
      rcases le_or_lt ((filteredChecks m).length) (visibleRows m) with hle | hgt
      · rw [hc.2 hle]
        omega
      · exact (hc.1 hgt).1
    have hsel_ub : m.selected ≤ m.scrollOff + visibleRows m - 1 := by
      rcases le_or_lt ((filteredChecks m).length) (visibleRows m) with hle | hgt
      · have h0 := hc.2 hle
        rcases Nat.eq_zero_or_pos ((filteredChecks m).length) with hz | hp
        · have := hsel2 hz
          omega
        · have := hsel1 hp
          omega
      · exact (hc.1 hgt).2
    have hmsg : selMsg (SelEvent.dataOk d) = Msg.dataMsg (Except.ok d) := rfl
    rw [hmsg]
    have hDmode : (update m (Msg.dataMsg (Except.ok d))).1.mode = m.mode := rfl
    have hDsel : (update m (Msg.dataMsg (Except.ok d))).1.selected =
        (if 0 < (filteredChecks { m with prData := some d, err := none }).length then
          (if m.selected ≥
              (filteredChecks { m with prData := some d, err := none }).length then
            (filteredChecks { m with prData := some d, err := none }).length - 1
          else m.selected)
        else 0) := rfl
    have hDso : (update m (Msg.dataMsg (Except.ok d))).1.scrollOff =
        (if (filteredChecks { m with prData := some d, err := none }).length >
            visibleRows m then
          min m.scrollOff
            ((filteredChecks { m with prData := some d, err := none }).length -
              visibleRows m)
        else 0) := rfl
    have hDfc : filteredChecks (update m (Msg.dataMsg (Except.ok d))).1 =
        filteredChecks { m with prData := some d, err := none } :=
      filteredChecks_eq _ _ rfl rfl
    have hDvr : visibleRows (update m (Msg.dataMsg (Except.ok d))).1 =
        visibleRows m := visibleRows_eq _ _ rfl
    refine ⟨by rw [hDmode]; exact hmode, ?_, ?_⟩
    · unfold SelInv
      rw [activeLen_viewing _ (by rw [hDmode]; exact hmode), hDfc, hDsel]
      constructor
      · intro hn
        split_ifs <;> omega
      · intro hn
        split_ifs <;> omega
    · unfold ScrollInv
      rw [hDfc, hDvr, hDsel, hDso]
      constructor
      · intro hn
        split_ifs <;> omega
      · intro hn
        split_ifs <;> omega

/-- C3: along any sequence of selection-index-changing events in Viewing mode
(navigation, filter toggle, data-fetch results), the engine maintains the
scroll-offset invariant: whenever the filtered list has more items than
`visibleRows` (viewport height minus fixed chrome, minimum 1), the selected
row satisfies scrollOff ≤ selected ≤ scrollOff + visibleRows − 1, and whenever
the list fits the viewport the scroll offset is 0 — so the selected row is
always inside the visible window. The selection-bound invariant `SelInv` is
maintained alongside. -/
theorem scroll_offset_invariant (m : SessionState)
    (hmode : m.mode = ViewMode.viewing) (hs : SelInv m) (hc : ScrollInv m)
    (evs : List SelEvent) :
    (applySel m evs).mode = ViewMode.viewing ∧
    SelInv (applySel m evs) ∧ ScrollInv (applySel m evs) := by
  induction evs generalizing m with
  | nil => exact ⟨hmode, hs, hc⟩
  | cons e evs ih =>
    have hstep := sel_step_inv m e hmode hs hc
    exact ih (update m (selMsg e)).1 hstep.1 hstep.2.1 hstep.2.2

/-- Witness for C3: five consecutive move-downs over six checks in a
height-12 viewport (4 visible rows) keep the invariant — the engine lands on
selection 5 with scroll offset 2, matching ui_test.go's scroll scenario. -/
theorem scroll_offset_invariant_witness :
    ScrollInv (applySel mScrollW
      [SelEvent.down, SelEvent.down, SelEvent.down, SelEvent.down, SelEvent.down]) ∧
    (applySel mScrollW
      [SelEvent.down, SelEvent.down, SelEvent.down, SelEvent.down,
        SelEvent.down]).selected = 5 ∧
    (applySel mScrollW
      [SelEvent.down, SelEvent.down, SelEvent.down, SelEvent.down,
        SelEvent.down]).scrollOff = 2 :=
  ⟨(scroll_offset_invariant mScrollW (by decide) ⟨by decide, by decide⟩
      ⟨by decide, by decide⟩
      [SelEvent.down, SelEvent.down, SelEvent.down, SelEvent.down,
        SelEvent.down]).2.2,
    by decide, by decide⟩

end Prtop
